import Mathlib

/-
  Shallow embedding of the Kiddy Chat API core (src/main.py):
  the content filter, prompt composition, the in-memory session store and
  the request handlers (/initiate-session, /query, /session/add-prompt,
  /session, /sessions/active), together with proofs of the specified
  properties.
-/

namespace KiddyChat

/-! ## Content filter (src/main.py lines 199-241)

`contains_inappropriate_content` lowercases and strips the message, then
searches `re.search(rf'\b{re.escape(word)}\b', message_lower)` for each
banned word, and each of the three INAPPROPRIATE_PATTERNS regexes.
We embed the regex fragments actually used: a literal phrase bracketed by
word boundaries, and `\b(alt ...)\s+(alt ...)\b`.  A word character for
the boundary is an ASCII letter, digit or underscore (the inputs the
service handles are ASCII; Python's re is Unicode-aware but agrees on
ASCII). -/

def isWordChar (c : Char) : Bool := c.isAlphanum || c = '_'

def isWordCharO : Option Char → Bool
  | none => false
  | some c => isWordChar c

/-- A regex word boundary sits between two positions whose characters differ
in word-character-ness (text edges count as non-word). -/
def wordBoundary (a b : Option Char) : Bool := isWordCharO a != isWordCharO b

/-- Does the literal `w`, bracketed by word boundaries, match at the current
position?  `prev` is the character just before the position. -/
def wwHere (w : List Char) (prev : Option Char) (t : List Char) : Bool :=
  w.isPrefixOf t && wordBoundary prev w.head? &&
    wordBoundary w.getLast? ((t.drop w.length).head?)

/-- Scan the text for a whole-word occurrence of `w`, as
`re.search(rf'\b{re.escape(w)}\b', t)` does. -/
def wwSearch (w : List Char) (prev : Option Char) : List Char → Bool
  | [] => wwHere w prev []
  | c :: rest => wwHere w prev (c :: rest) || wwSearch w (some c) rest

def containsWholeWord (w m : String) : Bool := wwSearch w.data none m.data

/-- Does `\b w1 \s+ w2 \b` match at the current position?  `\s+` is one or
more whitespace characters; since `w2` never starts with whitespace, the
greedy scan that takes all whitespace is exact. -/
def seqHere (w1 w2 : List Char) (prev : Option Char) (t : List Char) : Bool :=
  wordBoundary prev w1.head? && w1.isPrefixOf t &&
    (let t1 := t.drop w1.length
     let ws := t1.takeWhile fun c => c.isWhitespace
     let t2 := t1.dropWhile fun c => c.isWhitespace
     !ws.isEmpty && w2.isPrefixOf t2 &&
       wordBoundary w2.getLast? ((t2.drop w2.length).head?))

def seqSearch (w1 w2 : List Char) (prev : Option Char) : List Char → Bool
  | [] => false
  | c :: rest => seqHere w1 w2 prev (c :: rest) || seqSearch w1 w2 (some c) rest

def containsSeq (w1 w2 m : String) : Bool := seqSearch w1.data w2.data none m.data

/-- INAPPROPRIATE_WORDS from src/main.py lines 199-204. -/
def INAPPROPRIATE_WORDS : List String := [
  "stupid", "idiot", "hate", "kill", "die", "death", "blood", "violence", "weapon",
  "gun", "knife", "fight", "hurt", "pain", "scary", "monster", "devil", "hell",
  "damn", "crap", "shut up", "loser", "dumb", "ugly", "fat", "skinny"
]

/-- The alternatives of the first INAPPROPRIATE_PATTERNS regex
`\b(i hate|you suck|go away|shut up)\b`. -/
def PATTERN1_ALTS : List String := ["i hate", "you suck", "go away", "shut up"]

/-- First group of `\b(stupid|dumb|idiot)\s+(person|kid|child|boy|girl)\b`. -/
def PATTERN2_FIRST : List String := ["stupid", "dumb", "idiot"]

def PATTERN2_SECOND : List String := ["person", "kid", "child", "boy", "girl"]

/-- First group of `\b(kill|hurt|hit|punch|kick)\s+(someone|somebody|people)\b`. -/
def PATTERN3_FIRST : List String := ["kill", "hurt", "hit", "punch", "kick"]

def PATTERN3_SECOND : List String := ["someone", "somebody", "people"]

/-- Whether any of the three INAPPROPRIATE_PATTERNS regexes matches the
(already normalized) text. -/
def anyPatternMatches (m : String) : Bool :=
  PATTERN1_ALTS.any (fun a => containsWholeWord a m)
  || PATTERN2_FIRST.any (fun a => PATTERN2_SECOND.any fun b => containsSeq a b m)
  || PATTERN3_FIRST.any (fun a => PATTERN3_SECOND.any fun b => containsSeq a b m)

/-- Python `str.lower()` on the ASCII range, as a list map (kept
kernel-computable; the service's inputs are ASCII). -/
def pyLower (s : String) : String := ⟨s.data.map Char.toLower⟩

/-- Python `str.strip()`: drop leading and trailing whitespace. -/
def pyStrip (s : String) : String :=
  ⟨((s.data.dropWhile Char.isWhitespace).reverse.dropWhile Char.isWhitespace).reverse⟩

/-- The normalization `message.lower().strip()` applied by the filter. -/
def normalize (s : String) : String := pyStrip (pyLower s)

/-- src/main.py lines 221-236: true when a banned word occurs whole-word in
the normalized message or an inappropriate pattern matches. -/
def contains_inappropriate_content (message : String) : Bool :=
  let message_lower := normalize message
  INAPPROPRIATE_WORDS.any (fun w => containsWholeWord w message_lower)
  || anyPatternMatches message_lower

/-- KIDS_FRIENDLY_RESPONSES from src/main.py lines 213-219. -/
def KIDS_FRIENDLY_RESPONSES : List String := [
  "I can't help with that kind of talk. Let's use kind words instead! 😊",
  "Oops! That's not very nice language. How about we talk about something fun instead?",
  "Let's keep our conversation friendly and positive! What would you like to learn about today?",
  "I'm here to have nice conversations with you. Can we use gentler words please?",
  "That doesn't sound very kind. Let's chat about something that makes you happy! 🌟"
]

/-- src/main.py lines 238-241: `random.choice(KIDS_FRIENDLY_RESPONSES)`.
The random draw is modelled by an arbitrary index reduced mod the list
length. -/
def get_kid_friendly_response (ridx : Nat) : String :=
  KIDS_FRIENDLY_RESPONSES.getD (ridx % KIDS_FRIENDLY_RESPONSES.length) ""

/-- The base system prompt, src/main.py lines 243-258. -/
def get_kids_system_prompt : String :=
  "You are a helpful, friendly, and safe AI assistant designed specifically for children. Please follow these guidelines:\n\n1. ALWAYS use simple, age-appropriate language that kids can understand\n2. Be encouraging, positive, and supportive in all responses\n3. Focus on education, creativity, fun facts, stories, games, and learning\n4. NEVER discuss topics that might be scary, violent, inappropriate, or harmful\n5. If asked about adult topics, gently redirect to kid-friendly alternatives\n6. Encourage curiosity, learning, and positive behavior\n7. Use emojis occasionally to make conversations fun 😊\n8. Be patient and explain things in simple terms\n9. Promote kindness, respect, and good values\n10. If you're unsure about a topic's appropriateness, choose not to discuss it\n\nRemember: You're talking to a child, so keep everything safe, educational, and fun!"

/-- The delimiter put before a session's additional prompt
(src/main.py lines 268 and 603). -/
def ADDITIONAL_DELIM : String := "\n\nAdditional instructions for this session: "

/-- The substitute used when the AI reply itself fails the filter
(src/main.py line 428). -/
def THINK_BETTER_RESPONSE : String :=
  "I want to make sure I'm being helpful and appropriate. Let me think of a better way to answer that! What else would you like to know? 😊"

/-- The fixed child-safe fallback returned when the OpenAI call raises
(src/main.py line 445). -/
def ERROR_RESPONSE : String :=
  "Oops! I'm having a little trouble right now. Can you try asking me something else? 🤖"

/-! ## Session store (src/main.py lines 160-320)

Sessions live in an in-process dict keyed by the session id.  We model the
dict as an association list with Python-dict update semantics (an insert
for an existing key replaces its value in place, otherwise appends), and
`datetime` instants as integers counting seconds. -/

structure Message where
  role : String
  content : String
deriving DecidableEq, Repr

structure SessionData where
  username : String
  created_at : Int
  last_activity : Int
  additional_prompt : Option String
  messages : List Message
deriving DecidableEq, Repr

abbrev Sessions := List (String × SessionData)

def lookupS : Sessions → String → Option SessionData
  | [], _ => none
  | (k, v) :: rest, key => if k = key then some v else lookupS rest key

/-- Python-dict assignment `sessions[k] = v`: replace in place or append. -/
def insertS : Sessions → String → SessionData → Sessions
  | [], key, v => [(key, v)]
  | (k, v') :: rest, key, v =>
      if k = key then (key, v) :: rest else (k, v') :: insertS rest key v

/-- Python-dict `del sessions[k]`. -/
def eraseS : Sessions → String → Sessions
  | [], _ => []
  | (k, v) :: rest, key => if k = key then rest else (k, v) :: eraseS rest key

/-- Number of seconds in 24 hours, the session time-to-live
(`timedelta(hours=24)`, src/main.py line 309). -/
def TTL_SECONDS : Int := 24 * 3600

/-- The errors the handlers surface: HTTP 400 for a failed input
precondition, HTTP 401 for an unknown session id. -/
inductive ApiError where
  | validation
  | notFound
deriving DecidableEq, Repr

/-- Outcome of the one external call, `client.chat.completions.create`:
either an assistant reply string or any raised exception. -/
inductive GatewayResult where
  | success (reply : String)
  | failure
deriving DecidableEq, Repr

/-- The system-message text as a function of the optional additional
prompt, as composed in create_session (src/main.py lines 266-272); the
truthiness test `if additional_prompt:` treats the empty string like
None. -/
def build_system_message : Option String → String
  | none => get_kids_system_prompt
  | some a =>
      if a = "" then get_kids_system_prompt
      else get_kids_system_prompt ++ ADDITIONAL_DELIM ++ a

/-- src/main.py lines 261-288: insert a fresh session whose history is the
single system message.  The uuid4 draw is modelled by passing the fresh id
in; `datetime.now()` by `now`. -/
def create_session (s : Sessions) (session_id username : String)
    (additional_prompt : Option String) (now : Int) : Sessions :=
  insertS s session_id
    { username := username
      created_at := now
      last_activity := now
      additional_prompt := additional_prompt
      messages := [⟨"system", build_system_message additional_prompt⟩] }

/-- The state effect of validate_session (src/main.py lines 290-305): on a
known id, refresh `last_activity`; on an unknown id the handler is never
entered and the store is untouched. -/
def touch_session (s : Sessions) (sid : String) (now : Int) : Sessions :=
  match lookupS s sid with
  | none => s
  | some sd => insertS s sid { sd with last_activity := now }

/-- src/main.py lines 307-320: drop every session whose `last_activity` is
strictly before `now` minus 24 hours; also yield how many were dropped
(the count the function logs). -/
def cleanup_expired_sessions (s : Sessions) (now : Int) : Sessions × Nat :=
  let expired := s.filter fun kv => kv.2.last_activity < now - TTL_SECONDS
  (s.filter fun kv => !(kv.2.last_activity < now - TTL_SECONDS : Bool), expired.length)

/-- The /initiate-session handler (src/main.py lines 334-360): reject a
blank username before any mutation, otherwise sweep expired sessions and
create the new one, answering its id. -/
def initiate_session (s : Sessions) (username new_id : String) (now : Int) :
    Sessions × Except ApiError String :=
  if pyStrip username = "" then (s, .error .validation)
  else
    let s1 := (cleanup_expired_sessions s now).1
    (create_session s1 new_id username none now, .ok new_id)

/-- The /query handler together with its validate_session dependency
(src/main.py lines 362-456).  FastAPI resolves the dependency first, so
the `last_activity` touch happens before the empty-message check.  The
gateway outcome and the refusal draw are the `gw` and `ridx`
parameters. -/
def query (s : Sessions) (sid message : String) (now : Int)
    (gw : GatewayResult) (ridx : Nat) : Sessions × Except ApiError String :=
  match lookupS s sid with
  | none => (s, .error .notFound)
  | some sd0 =>
    let s1 := insertS s sid { sd0 with last_activity := now }
    if pyStrip message = "" then (s1, .error .validation)
    else
      match lookupS s1 sid with
      | none => (s1, .error .notFound)
      | some sd =>
        if contains_inappropriate_content message then
          let kid_friendly_response := get_kid_friendly_response ridx
          let msgs := sd.messages ++
            [⟨"user", message⟩, ⟨"assistant", kid_friendly_response⟩]
          (insertS s1 sid { sd with messages := msgs }, .ok kid_friendly_response)
        else
          match gw with
          | .success reply =>
            let assistant_message :=
              if contains_inappropriate_content reply then THINK_BETTER_RESPONSE else reply
            let msgs := sd.messages ++
              [⟨"user", message⟩, ⟨"assistant", assistant_message⟩]
            (insertS s1 sid { sd with messages := msgs }, .ok assistant_message)
          | .failure =>
            let msgs := sd.messages ++
              [⟨"user", message⟩, ⟨"assistant", ERROR_RESPONSE⟩]
            (insertS s1 sid { sd with messages := msgs }, .ok ERROR_RESPONSE)

/-- The reply text the /query handler settles on for a non-empty message:
the refusal draw for unsafe input, else the gateway reply (substituted
when itself unsafe), else the fixed fallback on gateway failure.  Used to
state the closed form of `query` below. -/
def queryReply (message : String) (gw : GatewayResult) (ridx : Nat) : String :=
  if contains_inappropriate_content message then get_kid_friendly_response ridx
  else
    match gw with
    | .success reply =>
      if contains_inappropriate_content reply then THINK_BETTER_RESPONSE else reply
    | .failure => ERROR_RESPONSE

/-- src/main.py lines 601-613: rebuild the combined system prompt and
overwrite the content of the leading system message, or insert one at
position 0 if the history somehow lacks it (`messages.insert(0, ...)`). -/
def promptUpdate (msgs : List Message) (text : String) : List Message :=
  let combined_prompt := get_kids_system_prompt ++ ADDITIONAL_DELIM ++ text
  match msgs with
  | m :: rest =>
    if m.role = "system" then { m with content := combined_prompt } :: rest
    else ⟨"system", combined_prompt⟩ :: m :: rest
  | [] => [⟨"system", combined_prompt⟩]

/-- The /session/add-prompt handler with its validate_session dependency
(src/main.py lines 584-619): store the new additional prompt, rebuild the
combined system prompt and overwrite the content of the leading system
message (inserting one at position 0 if the history somehow lacks it). -/
def add_session_prompt (s : Sessions) (sid text : String) (now : Int) :
    Sessions × Except ApiError String :=
  match lookupS s sid with
  | none => (s, .error .notFound)
  | some sd0 =>
    let s1 := insertS s sid { sd0 with last_activity := now }
    if pyStrip text = "" then (s1, .error .validation)
    else
      match lookupS s1 sid with
      | none => (s1, .error .notFound)
      | some sd =>
        (insertS s1 sid
          { sd with
            additional_prompt := some text
            messages := promptUpdate sd.messages text },
         .ok text)

/-- The DELETE /session handler with its validate_session dependency
(src/main.py lines 472-485). -/
def end_session (s : Sessions) (sid : String) (now : Int) :
    Sessions × Except ApiError String :=
  match lookupS s sid with
  | none => (s, .error .notFound)
  | some sd =>
    let s1 := insertS s sid { sd with last_activity := now }
    (eraseS s1 sid, .ok sd.username)

/-- The /sessions/active handler (src/main.py lines 487-495): sweep, then
report the live count. -/
def get_active_sessions (s : Sessions) (now : Int) : Sessions × Nat :=
  let c := cleanup_expired_sessions s now
  (c.1, c.1.length)

/-! ## Declarative reading of the whole-word regex

`MatchesAt w t prev` is the textbook reading of `re.search(rf'\b w \b', t)`:
the text splits as `pre ++ w ++ post` with a word boundary on each side of
`w`.  The scanner `wwSearch` is proved equivalent to it below. -/

/-- The character standing just before the current position: the last of
`pre` when `pre` is non-empty, else the character `prev` before the whole
suffix. -/
def lastO (prev : Option Char) (pre : List Char) : Option Char :=
  match pre.getLast? with
  | some c => some c
  | none => prev

def MatchesAt (w t : List Char) (prev : Option Char) : Prop :=
  ∃ pre post, t = pre ++ w ++ post ∧
    wordBoundary (lastO prev pre) w.head? = true ∧
    wordBoundary w.getLast? post.head? = true

/-- The banned entry `w` occurs in `m` as a whole word (word boundaries on
both sides). -/
def MatchesWholeWord (w m : String) : Prop := MatchesAt w.data m.data none

/-! ## Reachable store states

One constructor per state-mutating boundary operation; `touch` is the
validate_session side effect of the read-only authenticated endpoints
(/session/history, /session/prompt-info).  `initiate` carries the
freshness of the uuid4 draw. -/

/-- The history invariant of one session: the first message is the system
message currently composed from the session's additional prompt. -/
def SessionWF (sd : SessionData) : Prop :=
  sd.messages.head? = some ⟨"system", build_system_message sd.additional_prompt⟩

/-- Store well-formedness: every stored session satisfies `SessionWF` and
ids are unique (the store is a dict). -/
def StoreWF (s : Sessions) : Prop :=
  (∀ kv ∈ s, SessionWF kv.2) ∧ (s.map Prod.fst).Nodup

inductive Step : Sessions → Sessions → Prop where
  | initiate (s : Sessions) (username new_id : String) (now : Int)
      (hfresh : lookupS s new_id = none) :
      Step s (initiate_session s username new_id now).1
  | message (s : Sessions) (sid message : String) (now : Int)
      (gw : GatewayResult) (ridx : Nat) :
      Step s (query s sid message now gw ridx).1
  | addPrompt (s : Sessions) (sid text : String) (now : Int) :
      Step s (add_session_prompt s sid text now).1
  | endSession (s : Sessions) (sid : String) (now : Int) :
      Step s (end_session s sid now).1
  | sweep (s : Sessions) (now : Int) :
      Step s (get_active_sessions s now).1
  | touch (s : Sessions) (sid : String) (now : Int) :
      Step s (touch_session s sid now)

/-- Stores reachable from the empty store at process start. -/
inductive Reachable : Sessions → Prop where
  | init : Reachable []
  | step {s s' : Sessions} : Reachable s → Step s s' → Reachable s'

/-! ## Store lemmas -/

theorem lookupS_insertS_self (s : Sessions) (k : String) (v : SessionData) :
    lookupS (insertS s k v) k = some v := by
  induction s with
  | nil => simp [insertS, lookupS]
  | cons kv rest ih =>
    obtain ⟨k0, v0⟩ := kv
    by_cases h : k0 = k
    · simp [insertS, h, lookupS]
    · simp [insertS, h, lookupS, ih]

theorem lookupS_insertS_ne (s : Sessions) {k k' : String} (v : SessionData)
    (h : k' ≠ k) : lookupS (insertS s k v) k' = lookupS s k' := by
  have hne : ¬(k = k') := fun he => h he.symm
  induction s with
  | nil => simp [insertS, lookupS, hne]
  | cons kv rest ih =>
    obtain ⟨k0, v0⟩ := kv
    by_cases h0 : k0 = k
    · subst h0
      simp [insertS, lookupS, hne]
    · simp only [insertS, if_neg h0, lookupS]
      by_cases h1 : k0 = k' <;> simp [h1, ih]

theorem lookupS_mem {s : Sessions} {k : String} {v : SessionData}
    (h : lookupS s k = some v) : (k, v) ∈ s := by
  induction s with
  | nil => simp [lookupS] at h
  | cons kv rest ih =>
    obtain ⟨k0, v0⟩ := kv
    by_cases h0 : k0 = k
    · subst h0
      simp [lookupS] at h
      simp [h]
    · simp only [lookupS, if_neg h0] at h
      exact List.mem_cons_of_mem _ (ih h)

theorem mem_insertS {s : Sessions} {k : String} {v : SessionData} {kv : String × SessionData}
    (h : kv ∈ insertS s k v) : kv = (k, v) ∨ kv ∈ s := by
  induction s with
  | nil => simpa [insertS] using h
  | cons kv0 rest ih =>
    obtain ⟨k0, v0⟩ := kv0
    by_cases h0 : k0 = k
    · simp only [insertS, if_pos h0] at h
      rcases List.mem_cons.mp h with h | h
      · exact Or.inl h
      · exact Or.inr (List.mem_cons_of_mem _ h)
    · simp only [insertS, if_neg h0] at h
      rcases List.mem_cons.mp h with h | h
      · exact Or.inr (by simp [h])
      · rcases ih h with h | h
        · exact Or.inl h
        · exact Or.inr (List.mem_cons_of_mem _ h)

theorem mem_keys_insertS {s : Sessions} {k : String} {v : SessionData} {a : String}
    (h : a ∈ (insertS s k v).map Prod.fst) : a = k ∨ a ∈ s.map Prod.fst := by
  rcases List.mem_map.mp h with ⟨kv, hkv, rfl⟩
  rcases mem_insertS hkv with h | h
  · exact Or.inl (by simp [h])
  · exact Or.inr (List.mem_map_of_mem _ h)

theorem keys_insertS_nodup {s : Sessions} (k : String) (v : SessionData)
    (h : (s.map Prod.fst).Nodup) : ((insertS s k v).map Prod.fst).Nodup := by
  induction s with
  | nil => simp [insertS]
  | cons kv0 rest ih =>
    obtain ⟨k0, v0⟩ := kv0
    simp only [List.map_cons, List.nodup_cons] at h
    by_cases h0 : k0 = k
    · subst h0
      simpa [insertS, List.nodup_cons] using h
    · simp only [insertS, if_neg h0, List.map_cons, List.nodup_cons]
      refine ⟨fun hmem => ?_, ih h.2⟩
      rcases mem_keys_insertS hmem with h1 | h1
      · exact h0 h1
      · exact h.1 h1

theorem eraseS_sublist (s : Sessions) (k : String) : (eraseS s k).Sublist s := by
  induction s with
  | nil => simp [eraseS]
  | cons kv rest ih =>
    obtain ⟨k0, v0⟩ := kv
    by_cases h0 : k0 = k
    · simp only [eraseS, if_pos h0]
      exact List.sublist_cons_self _ _
    · simp only [eraseS, if_neg h0]
      exact ih.cons₂ _

theorem lookupS_eq_none_of_not_mem {s : Sessions} {k : String}
    (h : k ∉ s.map Prod.fst) : lookupS s k = none := by
  induction s with
  | nil => simp [lookupS]
  | cons kv rest ih =>
    obtain ⟨k0, v0⟩ := kv
    simp only [List.map_cons, List.mem_cons, not_or] at h
    simp only [lookupS]
    rw [if_neg fun he => h.1 he.symm]
    exact ih h.2

theorem lookupS_eraseS_ne (s : Sessions) {k k' : String} (h : k' ≠ k) :
    lookupS (eraseS s k) k' = lookupS s k' := by
  have hne : ¬(k = k') := fun he => h he.symm
  induction s with
  | nil => simp [eraseS]
  | cons kv rest ih =>
    obtain ⟨k0, v0⟩ := kv
    by_cases h0 : k0 = k
    · subst h0
      simp [eraseS, lookupS, hne]
    · simp only [eraseS, if_neg h0, lookupS]
      by_cases h1 : k0 = k' <;> simp [h1, ih]

theorem lookupS_eraseS_self {s : Sessions} (k : String)
    (h : (s.map Prod.fst).Nodup) : lookupS (eraseS s k) k = none := by
  induction s with
  | nil => simp [eraseS, lookupS]
  | cons kv rest ih =>
    obtain ⟨k0, v0⟩ := kv
    simp only [List.map_cons, List.nodup_cons] at h
    by_cases h0 : k0 = k
    · subst h0
      simp only [eraseS, if_pos rfl]
      exact lookupS_eq_none_of_not_mem h.1
    · simp only [eraseS, if_neg h0, lookupS]
      exact ih h.2

theorem lookupS_filter {p : String × SessionData → Bool} {s : Sessions}
    (hnd : (s.map Prod.fst).Nodup) {k : String} {v : SessionData}
    (hl : lookupS s k = some v) :
    lookupS (s.filter p) k = if p (k, v) then some v else none := by
  induction s with
  | nil => simp [lookupS] at hl
  | cons kv rest ih =>
    obtain ⟨k0, v0⟩ := kv
    simp only [List.map_cons, List.nodup_cons] at hnd
    by_cases h0 : k0 = k
    · subst h0
      simp [lookupS] at hl
      subst hl
      by_cases hp : p (k0, v0)
      · simp [List.filter_cons, hp, lookupS]
      · simp only [List.filter_cons]
        rw [if_neg hp, if_neg hp]
        refine lookupS_eq_none_of_not_mem fun hmem => hnd.1 ?_
        exact ((List.filter_sublist (p := p) rest).map Prod.fst).subset hmem
    · simp only [lookupS] at hl
      rw [if_neg h0] at hl
      have hrec := ih hnd.2 hl
      by_cases hp : p (k0, v0)
      · simp only [List.filter_cons]
        rw [if_pos hp]
        simp only [lookupS]
        rw [if_neg h0]
        exact hrec
      · simp only [List.filter_cons]
        rw [if_neg hp]
        exact hrec

theorem length_filter_partition (p : String × SessionData → Bool) (s : Sessions) :
    (s.filter fun kv => !(p kv)).length + (s.filter p).length = s.length := by
  induction s with
  | nil => simp
  | cons kv rest ih =>
    by_cases hp : p kv <;> simp [List.filter_cons, hp] <;> omega

theorem tail_prefix_append (l xs : List Message) : l.tail <+: (l ++ xs).tail := by
  cases l with
  | nil => exact List.nil_prefix
  | cons a t => exact List.prefix_append t xs

theorem head?_append_of_some {l : List Message} {a : Message} (xs : List Message)
    (h : l.head? = some a) : (l ++ xs).head? = some a := by
  cases l with
  | nil => simp at h
  | cons b t => simpa using h

/-! ## Scanner correctness: `wwSearch` decides `MatchesAt` -/

theorem getLast?_cons_isSome (d : Char) (l : List Char) :
    ∃ x, (d :: l).getLast? = some x := by
  induction l generalizing d with
  | nil => exact ⟨d, rfl⟩
  | cons e rest ih =>
    rcases ih e with ⟨x, hx⟩
    exact ⟨x, by rw [List.getLast?_cons_cons, hx]⟩

theorem lastO_cons (prev : Option Char) (c : Char) (pre : List Char) :
    lastO prev (c :: pre) = lastO (some c) pre := by
  cases pre with
  | nil => simp [lastO]
  | cons d rest =>
    rcases getLast?_cons_isSome d rest with ⟨x, hx⟩
    simp [lastO, List.getLast?_cons_cons, hx]

theorem wwHere_iff {w : List Char} {prev : Option Char} {t : List Char} :
    wwHere w prev t = true ↔
      ∃ post, t = w ++ post ∧ wordBoundary prev w.head? = true ∧
        wordBoundary w.getLast? post.head? = true := by
  unfold wwHere
  simp only [Bool.and_eq_true, List.isPrefixOf_iff_prefix]
  constructor
  · rintro ⟨⟨⟨post, rfl⟩, hb1⟩, hb2⟩
    rw [List.drop_left] at hb2
    exact ⟨post, rfl, hb1, hb2⟩
  · rintro ⟨post, rfl, hb1, hb2⟩
    rw [List.drop_left]
    exact ⟨⟨⟨post, rfl⟩, hb1⟩, hb2⟩

theorem wwSearch_iff (w : List Char) :
    ∀ (t : List Char) (prev : Option Char),
      wwSearch w prev t = true ↔ MatchesAt w t prev := by
  intro t
  induction t with
  | nil =>
    intro prev
    rw [wwSearch]
    constructor
    · intro h
      rcases wwHere_iff.mp h with ⟨post, heq, hb1, hb2⟩
      rcases List.append_eq_nil.mp heq.symm with ⟨rfl, rfl⟩
      simp [wordBoundary, isWordCharO] at hb2
    · rintro ⟨pre, post, heq, hb1, hb2⟩
      rcases List.append_eq_nil.mp heq.symm with ⟨h1, rfl⟩
      rcases List.append_eq_nil.mp h1 with ⟨rfl, rfl⟩
      simp [wordBoundary, isWordCharO] at hb2
  | cons c rest ih =>
    intro prev
    rw [wwSearch, Bool.or_eq_true]
    constructor
    · rintro (h | h)
      · rcases wwHere_iff.mp h with ⟨post, heq, hb1, hb2⟩
        exact ⟨[], post, by simpa using heq, by simpa [lastO] using hb1, hb2⟩
      · rcases (ih (some c)).mp h with ⟨pre, post, heq, hb1, hb2⟩
        refine ⟨c :: pre, post, by simp [heq], ?_, hb2⟩
        rwa [lastO_cons]
    · rintro ⟨pre, post, heq, hb1, hb2⟩
      cases pre with
      | nil =>
        left
        exact wwHere_iff.mpr ⟨post, by simpa using heq,
          by simpa [lastO] using hb1, hb2⟩
      | cons c0 pre' =>
        right
        simp only [List.cons_append, List.cons.injEq] at heq
        obtain ⟨rfl, hrest⟩ := heq
        rw [lastO_cons] at hb1
        exact (ih (some c)).mpr ⟨pre', post, hrest, hb1, hb2⟩

theorem containsWholeWord_iff (w m : String) :
    containsWholeWord w m = true ↔ MatchesWholeWord w m :=
  wwSearch_iff w.data m.data none

/-! ## Closed forms of the handlers -/

theorem query_notFound {s : Sessions} {sid message : String} {now : Int}
    {gw : GatewayResult} {ridx : Nat} (hs : lookupS s sid = none) :
    query s sid message now gw ridx = (s, .error .notFound) := by
  simp only [query, hs]

theorem query_validation {s : Sessions} {sid message : String} {sd : SessionData}
    {now : Int} {gw : GatewayResult} {ridx : Nat}
    (hs : lookupS s sid = some sd) (hm : pyStrip message = "") :
    query s sid message now gw ridx =
      (insertS s sid { sd with last_activity := now }, .error .validation) := by
  simp only [query, hs]
  rw [if_pos hm]

theorem query_closed_form {s : Sessions} {sid message : String} {sd : SessionData}
    {now : Int} {gw : GatewayResult} {ridx : Nat}
    (hs : lookupS s sid = some sd) (hm : ¬(pyStrip message = "")) :
    query s sid message now gw ridx =
      (insertS (insertS s sid { sd with last_activity := now }) sid
        { sd with
          last_activity := now
          messages := sd.messages ++
            [⟨"user", message⟩, ⟨"assistant", queryReply message gw ridx⟩] },
       .ok (queryReply message gw ridx)) := by
  simp only [query, hs, lookupS_insertS_self]
  rw [if_neg hm]
  unfold queryReply
  by_cases hf : contains_inappropriate_content message = true
  · rw [if_pos hf, if_pos hf]
  · rw [if_neg hf, if_neg hf]
    cases gw with
    | success reply => rfl
    | failure => rfl

theorem add_prompt_notFound {s : Sessions} {sid text : String} {now : Int}
    (hs : lookupS s sid = none) :
    add_session_prompt s sid text now = (s, .error .notFound) := by
  simp only [add_session_prompt, hs]

theorem add_prompt_validation {s : Sessions} {sid text : String} {sd : SessionData}
    {now : Int} (hs : lookupS s sid = some sd) (ht : pyStrip text = "") :
    add_session_prompt s sid text now =
      (insertS s sid { sd with last_activity := now }, .error .validation) := by
  simp only [add_session_prompt, hs]
  rw [if_pos ht]

theorem add_prompt_closed {s : Sessions} {sid text : String} {sd : SessionData}
    {now : Int} (hs : lookupS s sid = some sd) (ht : ¬(pyStrip text = "")) :
    add_session_prompt s sid text now =
      (insertS (insertS s sid { sd with last_activity := now }) sid
        { sd with
          last_activity := now
          additional_prompt := some text
          messages := promptUpdate sd.messages text },
       .ok text) := by
  simp only [add_session_prompt, hs, lookupS_insertS_self]
  rw [if_neg ht]

theorem promptUpdate_head (msgs : List Message) (text : String) :
    (promptUpdate msgs text).head? =
      some ⟨"system", get_kids_system_prompt ++ ADDITIONAL_DELIM ++ text⟩ := by
  cases msgs with
  | nil => rfl
  | cons m rest =>
    by_cases hr : m.role = "system"
    · simp [promptUpdate, hr]
    · simp [promptUpdate, hr]

theorem promptUpdate_of_system {msgs : List Message} {m0 : Message} (text : String)
    (h : msgs.head? = some m0) (hr : m0.role = "system") :
    promptUpdate msgs text =
      ⟨"system", get_kids_system_prompt ++ ADDITIONAL_DELIM ++ text⟩ :: msgs.tail := by
  cases msgs with
  | nil => simp at h
  | cons m rest =>
    simp only [List.head?_cons, Option.some.injEq] at h
    subst h
    simp [promptUpdate, hr]

theorem pyStrip_ne_empty {t : String} (h : ¬(pyStrip t = "")) : t ≠ "" := by
  intro he
  subst he
  exact h (by decide)

theorem build_system_message_some {a : String} (h : a ≠ "") :
    build_system_message (some a) =
      get_kids_system_prompt ++ ADDITIONAL_DELIM ++ a := by
  simp [build_system_message, h]

theorem get_kid_friendly_response_mem (ridx : Nat) :
    get_kid_friendly_response ridx ∈ KIDS_FRIENDLY_RESPONSES := by
  have hlt : ridx % KIDS_FRIENDLY_RESPONSES.length < KIDS_FRIENDLY_RESPONSES.length :=
    Nat.mod_lt _ (by norm_num [KIDS_FRIENDLY_RESPONSES])
  unfold get_kid_friendly_response
  rw [List.getD_eq_getElem _ _ hlt]
  exact List.getElem_mem hlt

/-! ## Store well-formedness is preserved by every step -/

theorem storeWF_insert {s : Sessions} {k : String} {v : SessionData}
    (h : StoreWF s) (hv : SessionWF v) : StoreWF (insertS s k v) := by
  refine ⟨fun kv hkv => ?_, keys_insertS_nodup k v h.2⟩
  rcases mem_insertS hkv with rfl | hkv'
  · exact hv
  · exact h.1 kv hkv'

theorem storeWF_erase {s : Sessions} (k : String) (h : StoreWF s) :
    StoreWF (eraseS s k) :=
  ⟨fun kv hkv => h.1 kv ((eraseS_sublist s k).subset hkv),
   List.Nodup.sublist ((eraseS_sublist s k).map Prod.fst) h.2⟩

theorem storeWF_filter {s : Sessions} (p : String × SessionData → Bool)
    (h : StoreWF s) : StoreWF (s.filter p) :=
  ⟨fun kv hkv => h.1 kv ((List.filter_sublist s).subset hkv),
   List.Nodup.sublist ((List.filter_sublist s).map Prod.fst) h.2⟩

theorem sessionWF_of_lookup {s : Sessions} {k : String} {v : SessionData}
    (h : StoreWF s) (hl : lookupS s k = some v) : SessionWF v :=
  h.1 (k, v) (lookupS_mem hl)

theorem sessionWF_touch {sd : SessionData} (now : Int) (h : SessionWF sd) :
    SessionWF { sd with last_activity := now } := h

theorem sessionWF_append {sd : SessionData} {now : Int} (xs : List Message)
    (h : SessionWF sd) :
    SessionWF { sd with last_activity := now, messages := sd.messages ++ xs } :=
  head?_append_of_some xs h

theorem lookupS_filter_some {p : String × SessionData → Bool} {s : Sessions}
    (hnd : (s.map Prod.fst).Nodup) {k : String} {v v' : SessionData}
    (hl : lookupS s k = some v) (h2 : lookupS (s.filter p) k = some v') :
    v' = v := by
  rw [lookupS_filter hnd hl] at h2
  by_cases hp : p (k, v) = true
  · rw [if_pos hp] at h2
    exact (Option.some.inj h2).symm
  · rw [if_neg hp] at h2
    cases h2

theorem storeWF_step {s s' : Sessions} (h : StoreWF s) (hs : Step s s') :
    StoreWF s' := by
  cases hs with
  | initiate u nid now hfresh =>
    by_cases hu : pyStrip u = ""
    · simp only [initiate_session, if_pos hu]
      exact h
    · simp only [initiate_session, if_neg hu, create_session,
        cleanup_expired_sessions]
      exact storeWF_insert (storeWF_filter _ h) rfl
  | message qsid msg now gw ridx =>
    cases hl : lookupS s qsid with
    | none =>
      rw [query_notFound hl]
      exact h
    | some sd0 =>
      have hwf0 := sessionWF_of_lookup h hl
      by_cases hm : pyStrip msg = ""
      · rw [query_validation hl hm]
        exact storeWF_insert h (sessionWF_touch now hwf0)
      · rw [query_closed_form hl hm]
        exact storeWF_insert (storeWF_insert h (sessionWF_touch now hwf0))
          (sessionWF_append _ hwf0)
  | addPrompt qsid text now =>
    cases hl : lookupS s qsid with
    | none =>
      rw [add_prompt_notFound hl]
      exact h
    | some sd0 =>
      have hwf0 := sessionWF_of_lookup h hl
      by_cases ht : pyStrip text = ""
      · rw [add_prompt_validation hl ht]
        exact storeWF_insert h (sessionWF_touch now hwf0)
      · rw [add_prompt_closed hl ht]
        refine storeWF_insert (storeWF_insert h (sessionWF_touch now hwf0)) ?_
        show (promptUpdate sd0.messages text).head? =
          some ⟨"system", build_system_message (some text)⟩
        rw [promptUpdate_head, build_system_message_some (pyStrip_ne_empty ht)]
  | endSession qsid now =>
    cases hl : lookupS s qsid with
    | none =>
      simp only [end_session, hl]
      exact h
    | some sd0 =>
      simp only [end_session, hl]
      exact storeWF_erase _
        (storeWF_insert h (sessionWF_touch now (sessionWF_of_lookup h hl)))
  | sweep now =>
    simp only [get_active_sessions, cleanup_expired_sessions]
    exact storeWF_filter _ h
  | touch qsid now =>
    cases hl : lookupS s qsid with
    | none =>
      simp only [touch_session, hl]
      exact h
    | some sd0 =>
      simp only [touch_session, hl]
      exact storeWF_insert h (sessionWF_touch now (sessionWF_of_lookup h hl))

theorem reachable_storeWF {s : Sessions} (h : Reachable s) : StoreWF s := by
  induction h with
  | init => exact ⟨fun kv hkv => absurd hkv (List.not_mem_nil kv), List.nodup_nil⟩
  | step _ hstep ih => exact storeWF_step ih hstep

/-- Within one step, the part of a session's history after index 0 is only
ever extended at the end: the old tail is a prefix of the new tail. -/
theorem step_tail_prefix {s s' : Sessions} (hwf : StoreWF s) (hs : Step s s')
    {sid : String} {sd sd' : SessionData}
    (h1 : lookupS s sid = some sd) (h2 : lookupS s' sid = some sd') :
    sd.messages.tail <+: sd'.messages.tail := by
  cases hs with
  | initiate u nid now hfresh =>
    by_cases hu : pyStrip u = ""
    · simp only [initiate_session, if_pos hu] at h2
      rw [h1] at h2
      rw [Option.some.inj h2]
    · simp only [initiate_session, if_neg hu, create_session,
        cleanup_expired_sessions] at h2
      by_cases hsid : sid = nid
      · subst hsid
        rw [h1] at hfresh
        cases hfresh
      · rw [lookupS_insertS_ne _ _ hsid] at h2
        rw [lookupS_filter_some hwf.2 h1 h2]
  | message qsid msg now gw ridx =>
    cases hl : lookupS s qsid with
    | none =>
      rw [query_notFound hl] at h2
      rw [h1] at h2
      rw [Option.some.inj h2]
    | some sd0 =>
      by_cases hm : pyStrip msg = ""
      · rw [query_validation hl hm] at h2
        by_cases hsid : sid = qsid
        · subst hsid
          rw [hl] at h1
          obtain rfl := Option.some.inj h1
          rw [lookupS_insertS_self] at h2
          obtain rfl := Option.some.inj h2
          exact List.prefix_refl _
        · rw [lookupS_insertS_ne _ _ hsid] at h2
          rw [h1] at h2
          rw [Option.some.inj h2]
      · rw [query_closed_form hl hm] at h2
        by_cases hsid : sid = qsid
        · subst hsid
          rw [hl] at h1
          obtain rfl := Option.some.inj h1
          rw [lookupS_insertS_self] at h2
          obtain rfl := Option.some.inj h2
          exact tail_prefix_append _ _
        · rw [lookupS_insertS_ne _ _ hsid, lookupS_insertS_ne _ _ hsid] at h2
          rw [h1] at h2
          rw [Option.some.inj h2]
  | addPrompt qsid text now =>
    cases hl : lookupS s qsid with
    | none =>
      rw [add_prompt_notFound hl] at h2
      rw [h1] at h2
      rw [Option.some.inj h2]
    | some sd0 =>
      by_cases ht : pyStrip text = ""
      · rw [add_prompt_validation hl ht] at h2
        by_cases hsid : sid = qsid
        · subst hsid
          rw [hl] at h1
          obtain rfl := Option.some.inj h1
          rw [lookupS_insertS_self] at h2
          obtain rfl := Option.some.inj h2
          exact List.prefix_refl _
        · rw [lookupS_insertS_ne _ _ hsid] at h2
          rw [h1] at h2
          rw [Option.some.inj h2]
      · rw [add_prompt_closed hl ht] at h2
        by_cases hsid : sid = qsid
        · subst hsid
          rw [hl] at h1
          obtain rfl := Option.some.inj h1
          rw [lookupS_insertS_self] at h2
          obtain rfl := Option.some.inj h2
          have hwf0 : SessionWF sd0 := sessionWF_of_lookup hwf hl
          show sd0.messages.tail <+: (promptUpdate sd0.messages text).tail
          rw [promptUpdate_of_system text hwf0 rfl, List.tail_cons]
        · rw [lookupS_insertS_ne _ _ hsid, lookupS_insertS_ne _ _ hsid] at h2
          rw [h1] at h2
          rw [Option.some.inj h2]
  | endSession qsid now =>
    cases hl : lookupS s qsid with
    | none =>
      simp only [end_session, hl] at h2
      rw [h1] at h2
      rw [Option.some.inj h2]
    | some sd0 =>
      simp only [end_session, hl] at h2
      by_cases hsid : sid = qsid
      · subst hsid
        rw [lookupS_eraseS_self _ (keys_insertS_nodup _ _ hwf.2)] at h2
        cases h2
      · rw [lookupS_eraseS_ne _ hsid, lookupS_insertS_ne _ _ hsid] at h2
        rw [h1] at h2
        rw [Option.some.inj h2]
  | sweep now =>
    simp only [get_active_sessions, cleanup_expired_sessions] at h2
    rw [lookupS_filter_some hwf.2 h1 h2]
  | touch qsid now =>
    cases hl : lookupS s qsid with
    | none =>
      simp only [touch_session, hl] at h2
      rw [h1] at h2
      rw [Option.some.inj h2]
    | some sd0 =>
      simp only [touch_session, hl] at h2
      by_cases hsid : sid = qsid
      · subst hsid
        rw [hl] at h1
        obtain rfl := Option.some.inj h1
        rw [lookupS_insertS_self] at h2
        obtain rfl := Option.some.inj h2
        exact List.prefix_refl _
      · rw [lookupS_insertS_ne _ _ hsid] at h2
        rw [h1] at h2
        rw [Option.some.inj h2]

/-! ## The specified properties -/

/-- C1: on a live session and a non-empty message, every exit path of the
/query handler (unsafe-input refusal, gateway success with or without
substitution, gateway failure) answers ok and grows the session's history
by exactly two messages. -/
theorem spec_C1_history_grows_by_two (s : Sessions) (sid message : String)
    (sd : SessionData) (now : Int) (gw : GatewayResult) (ridx : Nat)
    (hs : lookupS s sid = some sd) (hm : ¬(pyStrip message = "")) :
    ∃ (r : String) (sd' : SessionData),
      (query s sid message now gw ridx).2 = Except.ok r ∧
      lookupS (query s sid message now gw ridx).1 sid = some sd' ∧
      sd'.messages.length = sd.messages.length + 2 := by
  rw [query_closed_form hs hm]
  refine ⟨queryReply message gw ridx, _, rfl, lookupS_insertS_self _ _ _, ?_⟩
  simp

/-- Witness for C1: a concrete session, message and gateway outcome. -/
theorem spec_C1_witness :
    ∃ (r : String) (sd' : SessionData),
      (query [("tok", ⟨"kid", 0, 0, none, [⟨"system", get_kids_system_prompt⟩]⟩)]
          "tok" "hello" 5 GatewayResult.failure 0).2 = Except.ok r ∧
      lookupS (query [("tok", ⟨"kid", 0, 0, none, [⟨"system", get_kids_system_prompt⟩]⟩)]
          "tok" "hello" 5 GatewayResult.failure 0).1 "tok" = some sd' ∧
      sd'.messages.length = 1 + 2 :=
  spec_C1_history_grows_by_two
    [("tok", ⟨"kid", 0, 0, none, [⟨"system", get_kids_system_prompt⟩]⟩)]
    "tok" "hello" ⟨"kid", 0, 0, none, [⟨"system", get_kids_system_prompt⟩]⟩
    5 GatewayResult.failure 0 rfl (by decide)

/-- C2: the filter fires exactly when a banned word occurs as a whole word
(boundaries on both sides, case-insensitively after normalization) or one
of the configured patterns matches; a banned entry hiding inside a longer
word does not fire it, and no match means false, not an error. -/
theorem spec_C2_filter_characterization :
    (∀ text : String,
        contains_inappropriate_content text = true ↔
          ((∃ w ∈ INAPPROPRIATE_WORDS, MatchesWholeWord w (normalize text)) ∨
            anyPatternMatches (normalize text) = true)) ∧
    contains_inappropriate_content "you are SO stupid" = true ∧
    contains_inappropriate_content "stupidity" = false := by
  refine ⟨fun text => ?_, by decide, by decide⟩
  unfold contains_inappropriate_content
  simp only [Bool.or_eq_true, List.any_eq_true]
  constructor
  · rintro (⟨w, hw, hmatch⟩ | hp)
    · exact Or.inl ⟨w, hw, (containsWholeWord_iff w _).mp hmatch⟩
    · exact Or.inr hp
  · rintro (⟨w, hw, hmatch⟩ | hp)
    · exact Or.inl ⟨w, hw, (containsWholeWord_iff w _).mpr hmatch⟩
    · exact Or.inr hp

/-- C3: on unsafe input the handler's outcome does not depend on the
gateway at all, the answer is one of the canned refusals, and the history
gains the literal user text followed by that refusal. -/
theorem spec_C3_unsafe_input_refused (s : Sessions) (sid message : String)
    (sd : SessionData) (now : Int) (gw : GatewayResult) (ridx : Nat)
    (hs : lookupS s sid = some sd) (hm : ¬(pyStrip message = ""))
    (hu : contains_inappropriate_content message = true) :
    (∀ gw' : GatewayResult,
        query s sid message now gw ridx = query s sid message now gw' ridx) ∧
    ∃ (r : String) (sd' : SessionData),
      (query s sid message now gw ridx).2 = Except.ok r ∧
      r ∈ KIDS_FRIENDLY_RESPONSES ∧
      lookupS (query s sid message now gw ridx).1 sid = some sd' ∧
      sd'.messages = sd.messages ++ [⟨"user", message⟩, ⟨"assistant", r⟩] := by
  have hrep : ∀ g : GatewayResult,
      queryReply message g ridx = get_kid_friendly_response ridx := by
    intro g
    unfold queryReply
    rw [if_pos hu]
  constructor
  · intro gw'
    rw [query_closed_form hs hm, query_closed_form hs hm, hrep gw, hrep gw']
  · rw [query_closed_form hs hm, hrep gw]
    exact ⟨get_kid_friendly_response ridx, _, rfl, get_kid_friendly_response_mem ridx,
      lookupS_insertS_self _ _ _, rfl⟩

/-- Witness for C3: the message "I hate you" on a concrete session, under
two different gateway outcomes. -/
theorem spec_C3_witness :
    (query [("tok", ⟨"kid", 0, 0, none, [⟨"system", get_kids_system_prompt⟩]⟩)]
        "tok" "I hate you" 5 GatewayResult.failure 0 =
      query [("tok", ⟨"kid", 0, 0, none, [⟨"system", get_kids_system_prompt⟩]⟩)]
        "tok" "I hate you" 5 (GatewayResult.success "sure") 0) ∧
    ∃ (r : String) (sd' : SessionData),
      (query [("tok", ⟨"kid", 0, 0, none, [⟨"system", get_kids_system_prompt⟩]⟩)]
          "tok" "I hate you" 5 GatewayResult.failure 0).2 = Except.ok r ∧
      r ∈ KIDS_FRIENDLY_RESPONSES ∧
      lookupS (query [("tok", ⟨"kid", 0, 0, none, [⟨"system", get_kids_system_prompt⟩]⟩)]
          "tok" "I hate you" 5 GatewayResult.failure 0).1 "tok" = some sd' ∧
      sd'.messages = [⟨"system", get_kids_system_prompt⟩] ++
        [⟨"user", "I hate you"⟩, ⟨"assistant", r⟩] :=
  have h := spec_C3_unsafe_input_refused
    [("tok", ⟨"kid", 0, 0, none, [⟨"system", get_kids_system_prompt⟩]⟩)]
    "tok" "I hate you" ⟨"kid", 0, 0, none, [⟨"system", get_kids_system_prompt⟩]⟩
    5 GatewayResult.failure 0 rfl (by decide) (by decide)
  ⟨h.1 (GatewayResult.success "sure"), h.2⟩

/-- C4: a gateway failure is absorbed: the handler answers ok with the one
fixed child-safe fallback and records that fallback as the assistant
turn. -/
theorem spec_C4_provider_failure_fallback (s : Sessions) (sid message : String)
    (sd : SessionData) (now : Int) (ridx : Nat)
    (hs : lookupS s sid = some sd) (hm : ¬(pyStrip message = ""))
    (hsafe : contains_inappropriate_content message = false) :
    (query s sid message now GatewayResult.failure ridx).2 =
      Except.ok ERROR_RESPONSE ∧
    ∃ sd' : SessionData,
      lookupS (query s sid message now GatewayResult.failure ridx).1 sid = some sd' ∧
      sd'.messages = sd.messages ++
        [⟨"user", message⟩, ⟨"assistant", ERROR_RESPONSE⟩] := by
  have hrep : queryReply message GatewayResult.failure ridx = ERROR_RESPONSE := by
    unfold queryReply
    rw [if_neg (by simp [hsafe])]
  rw [query_closed_form hs hm, hrep]
  exact ⟨rfl, _, lookupS_insertS_self _ _ _, rfl⟩

/-- Witness for C4 at a concrete session and message. -/
theorem spec_C4_witness :
    (query [("tok", ⟨"kid", 0, 0, none, [⟨"system", get_kids_system_prompt⟩]⟩)]
        "tok" "hello" 5 GatewayResult.failure 0).2 = Except.ok ERROR_RESPONSE ∧
    ∃ sd' : SessionData,
      lookupS (query [("tok", ⟨"kid", 0, 0, none, [⟨"system", get_kids_system_prompt⟩]⟩)]
          "tok" "hello" 5 GatewayResult.failure 0).1 "tok" = some sd' ∧
      sd'.messages = [⟨"system", get_kids_system_prompt⟩] ++
        [⟨"user", "hello"⟩, ⟨"assistant", ERROR_RESPONSE⟩] :=
  spec_C4_provider_failure_fallback
    [("tok", ⟨"kid", 0, 0, none, [⟨"system", get_kids_system_prompt⟩]⟩)]
    "tok" "hello" ⟨"kid", 0, 0, none, [⟨"system", get_kids_system_prompt⟩]⟩
    5 0 rfl (by decide) (by decide)

/-- C5: when the gateway succeeds but its reply is itself unsafe, the reply
text is discarded: the fixed placeholder is answered and recorded, and the
exchange is still an ok outcome. -/
theorem spec_C5_unsafe_reply_substituted (s : Sessions)
    (sid message reply : String) (sd : SessionData) (now : Int) (ridx : Nat)
    (hs : lookupS s sid = some sd) (hm : ¬(pyStrip message = ""))
    (hsafe : contains_inappropriate_content message = false)
    (hbad : contains_inappropriate_content reply = true) :
    (query s sid message now (GatewayResult.success reply) ridx).2 =
      Except.ok THINK_BETTER_RESPONSE ∧
    ∃ sd' : SessionData,
      lookupS (query s sid message now (GatewayResult.success reply) ridx).1 sid
        = some sd' ∧
      sd'.messages = sd.messages ++
        [⟨"user", message⟩, ⟨"assistant", THINK_BETTER_RESPONSE⟩] := by
  have hrep : queryReply message (GatewayResult.success reply) ridx
      = THINK_BETTER_RESPONSE := by
    unfold queryReply
    rw [if_neg (by simp [hsafe])]
    show (if contains_inappropriate_content reply = true
        then THINK_BETTER_RESPONSE else reply) = THINK_BETTER_RESPONSE
    rw [if_pos hbad]
  rw [query_closed_form hs hm, hrep]
  exact ⟨rfl, _, lookupS_insertS_self _ _ _, rfl⟩

/-- Witness for C5: the gateway answers "I hate homework", which the filter
rejects. -/
theorem spec_C5_witness :
    (query [("tok", ⟨"kid", 0, 0, none, [⟨"system", get_kids_system_prompt⟩]⟩)]
        "tok" "hello" 5 (GatewayResult.success "I hate homework") 0).2 =
      Except.ok THINK_BETTER_RESPONSE ∧
    ∃ sd' : SessionData,
      lookupS (query [("tok", ⟨"kid", 0, 0, none, [⟨"system", get_kids_system_prompt⟩]⟩)]
          "tok" "hello" 5 (GatewayResult.success "I hate homework") 0).1 "tok"
        = some sd' ∧
      sd'.messages = [⟨"system", get_kids_system_prompt⟩] ++
        [⟨"user", "hello"⟩, ⟨"assistant", THINK_BETTER_RESPONSE⟩] :=
  spec_C5_unsafe_reply_substituted
    [("tok", ⟨"kid", 0, 0, none, [⟨"system", get_kids_system_prompt⟩]⟩)]
    "tok" "hello" "I hate homework"
    ⟨"kid", 0, 0, none, [⟨"system", get_kids_system_prompt⟩]⟩
    5 0 rfl (by decide) (by decide) (by decide)

/-- C6 counterexample: a /query call rejected for an empty (whitespace)
message still mutates the session: its `last_activity` moves from 0 to 5,
because the validate_session dependency touches it before the emptiness
check.  The claim says no field of any existing session is mutated by a
rejected call. -/
theorem spec_C6_counterexample :
    (query [("tok", ⟨"kid", 0, 0, none, [⟨"system", get_kids_system_prompt⟩]⟩)]
        "tok" " " 5 GatewayResult.failure 0).2 = Except.error ApiError.validation ∧
    (lookupS (query [("tok", ⟨"kid", 0, 0, none, [⟨"system", get_kids_system_prompt⟩]⟩)]
        "tok" " " 5 GatewayResult.failure 0).1 "tok").map SessionData.last_activity
      = some 5 ∧
    (lookupS [("tok", ⟨"kid", 0, 0, none, [⟨"system", get_kids_system_prompt⟩]⟩)]
        "tok").map SessionData.last_activity = some 0 := by
  refine ⟨?_, ?_, rfl⟩
  · rw [@query_validation
      [("tok", ⟨"kid", 0, 0, none, [⟨"system", get_kids_system_prompt⟩]⟩)]
      "tok" " " ⟨"kid", 0, 0, none, [⟨"system", get_kids_system_prompt⟩]⟩
      5 GatewayResult.failure 0 rfl (by decide)]
  · rw [@query_validation
      [("tok", ⟨"kid", 0, 0, none, [⟨"system", get_kids_system_prompt⟩]⟩)]
      "tok" " " ⟨"kid", 0, 0, none, [⟨"system", get_kids_system_prompt⟩]⟩
      5 GatewayResult.failure 0 rfl (by decide), lookupS_insertS_self]
    rfl

/-- C6 (amended): a rejected create leaves the store exactly unchanged; a
rejected message or prompt update creates and deletes nothing and leaves
every history and additional prompt unchanged, but does refresh the
target session's `last_activity` through the validation touch. -/
theorem spec_C6_validation_rejection :
    (∀ (s : Sessions) (u nid : String) (now : Int), pyStrip u = "" →
        initiate_session s u nid now = (s, Except.error ApiError.validation)) ∧
    (∀ (s : Sessions) (sid msg : String) (sd : SessionData) (now : Int)
        (gw : GatewayResult) (ridx : Nat),
        lookupS s sid = some sd → pyStrip msg = "" →
        query s sid msg now gw ridx =
          (insertS s sid { sd with last_activity := now },
           Except.error ApiError.validation)) ∧
    (∀ (s : Sessions) (sid t : String) (sd : SessionData) (now : Int),
        lookupS s sid = some sd → pyStrip t = "" →
        add_session_prompt s sid t now =
          (insertS s sid { sd with last_activity := now },
           Except.error ApiError.validation)) := by
  refine ⟨fun s u nid now hu => ?_,
    fun s sid msg sd now gw ridx hs hm => query_validation hs hm,
    fun s sid t sd now hs ht => add_prompt_validation hs ht⟩
  simp [initiate_session, hu]

/-- Witness for the amended C6: a whitespace username and a whitespace
message at concrete stores. -/
theorem spec_C6_witness :
    initiate_session [] "  " "fresh" 0 = ([], Except.error ApiError.validation) ∧
    query [("tok", ⟨"kid", 0, 0, none, [⟨"system", get_kids_system_prompt⟩]⟩)]
        "tok" " " 5 GatewayResult.failure 0 =
      (insertS [("tok", ⟨"kid", 0, 0, none, [⟨"system", get_kids_system_prompt⟩]⟩)]
        "tok" ⟨"kid", 0, 5, none, [⟨"system", get_kids_system_prompt⟩]⟩,
       Except.error ApiError.validation) :=
  ⟨spec_C6_validation_rejection.1 [] "  " "fresh" 0 (by decide),
   spec_C6_validation_rejection.2.1 _ "tok" " "
     ⟨"kid", 0, 0, none, [⟨"system", get_kids_system_prompt⟩]⟩
     5 GatewayResult.failure 0 rfl (by decide)⟩

/-- C7: setAdditionalPrompt answers NotFound on an unknown session and
Validation on blank text; on success it stores the text as the new
additional prompt and makes history index 0 the freshly composed system
message (overwriting in place when a system head exists), and a second
call composes the head from the new text only. -/
theorem spec_C7_set_additional_prompt :
    (∀ (s : Sessions) (sid t : String) (now : Int), lookupS s sid = none →
        add_session_prompt s sid t now = (s, Except.error ApiError.notFound)) ∧
    (∀ (s : Sessions) (sid t : String) (sd : SessionData) (now : Int),
        lookupS s sid = some sd → pyStrip t = "" →
        (add_session_prompt s sid t now).2 = Except.error ApiError.validation) ∧
    (∀ (s : Sessions) (sid t : String) (sd : SessionData) (now : Int),
        lookupS s sid = some sd → ¬(pyStrip t = "") →
        (add_session_prompt s sid t now).2 = Except.ok t ∧
        ∃ sd' : SessionData,
          lookupS (add_session_prompt s sid t now).1 sid = some sd' ∧
          sd'.additional_prompt = some t ∧
          sd'.messages.head? =
            some ⟨"system", get_kids_system_prompt ++ ADDITIONAL_DELIM ++ t⟩ ∧
          (sd.messages.head?.map Message.role = some "system" →
            sd'.messages =
              ⟨"system", get_kids_system_prompt ++ ADDITIONAL_DELIM ++ t⟩ ::
                sd.messages.tail)) ∧
    (∀ (s : Sessions) (sid t1 t2 : String) (sd : SessionData) (now1 now2 : Int),
        lookupS s sid = some sd → ¬(pyStrip t1 = "") → ¬(pyStrip t2 = "") →
        ∃ sd2 : SessionData,
          lookupS (add_session_prompt
              (add_session_prompt s sid t1 now1).1 sid t2 now2).1 sid = some sd2 ∧
          sd2.additional_prompt = some t2 ∧
          sd2.messages.head? =
            some ⟨"system", get_kids_system_prompt ++ ADDITIONAL_DELIM ++ t2⟩) := by
  refine ⟨fun s sid t now hs => add_prompt_notFound hs,
    fun s sid t sd now hs ht => ?_, fun s sid t sd now hs ht => ?_,
    fun s sid t1 t2 sd now1 now2 hs ht1 ht2 => ?_⟩
  · rw [add_prompt_validation hs ht]
  · rw [add_prompt_closed hs ht]
    refine ⟨rfl, _, lookupS_insertS_self _ _ _, rfl, promptUpdate_head _ _, ?_⟩
    intro hrole
    rcases Option.map_eq_some'.mp hrole with ⟨m0, hm0, hrole0⟩
    exact promptUpdate_of_system t hm0 hrole0
  · rw [add_prompt_closed hs ht1]
    rw [add_prompt_closed (lookupS_insertS_self _ _ _) ht2]
    exact ⟨_, lookupS_insertS_self _ _ _, rfl, promptUpdate_head _ _⟩

/-- Witness for C7: set "talk about space", then replace it with
"be extra gentle" on a concrete session. -/
theorem spec_C7_witness :
    (add_session_prompt
        [("tok", ⟨"kid", 0, 0, none, [⟨"system", get_kids_system_prompt⟩]⟩)]
        "tok" "talk about space" 5).2 = Except.ok "talk about space" ∧
    ∃ sd2 : SessionData,
      lookupS (add_session_prompt
          (add_session_prompt
            [("tok", ⟨"kid", 0, 0, none, [⟨"system", get_kids_system_prompt⟩]⟩)]
            "tok" "talk about space" 5).1 "tok" "be extra gentle" 6).1 "tok"
        = some sd2 ∧
      sd2.additional_prompt = some "be extra gentle" ∧
      sd2.messages.head? =
        some ⟨"system",
          get_kids_system_prompt ++ ADDITIONAL_DELIM ++ "be extra gentle"⟩ :=
  ⟨(spec_C7_set_additional_prompt.2.2.1
      [("tok", ⟨"kid", 0, 0, none, [⟨"system", get_kids_system_prompt⟩]⟩)]
      "tok" "talk about space"
      ⟨"kid", 0, 0, none, [⟨"system", get_kids_system_prompt⟩]⟩
      5 rfl (by decide)).1,
   spec_C7_set_additional_prompt.2.2.2
      [("tok", ⟨"kid", 0, 0, none, [⟨"system", get_kids_system_prompt⟩]⟩)]
      "tok" "talk about space" "be extra gentle"
      ⟨"kid", 0, 0, none, [⟨"system", get_kids_system_prompt⟩]⟩
      5 6 rfl (by decide) (by decide)⟩

/-- C8: the system-message composer is a pure function: with no (or an
empty) additional prompt it is exactly the base template, with a non-empty
one it is the base template followed by the delimited addendum, and equal
inputs give byte-identical output. -/
theorem spec_C8_build_system_message :
    build_system_message none = get_kids_system_prompt ∧
    (∀ a : String, a ≠ "" →
        build_system_message (some a) =
          get_kids_system_prompt ++ ADDITIONAL_DELIM ++ a) ∧
    (∀ o : Option String, build_system_message o = build_system_message o) :=
  ⟨rfl, fun _ ha => build_system_message_some ha, fun _ => rfl⟩

/-- Witness for C8 at the addendum "be extra gentle". -/
theorem spec_C8_witness :
    build_system_message (some "be extra gentle") =
      get_kids_system_prompt ++ ADDITIONAL_DELIM ++ "be extra gentle" :=
  spec_C8_build_system_message.2.1 "be extra gentle" (by decide)

/-- C9: the expiry sweep removes exactly the sessions whose last activity
is older than 24 hours before now (others keep their data untouched), and
the count it reports plus the retained sessions add up to the whole
store. -/
theorem spec_C9_sweep_expired (s : Sessions) (now : Int)
    (hnd : (s.map Prod.fst).Nodup) :
    (∀ (sid : String) (sd : SessionData), lookupS s sid = some sd →
        lookupS (cleanup_expired_sessions s now).1 sid =
          (if sd.last_activity < now - TTL_SECONDS then none else some sd)) ∧
    (cleanup_expired_sessions s now).1.length + (cleanup_expired_sessions s now).2
      = s.length := by
  constructor
  · intro sid sd hl
    unfold cleanup_expired_sessions
    rw [lookupS_filter hnd hl]
    by_cases hp : sd.last_activity < now - TTL_SECONDS <;> simp [hp]
  · exact length_filter_partition _ s

/-- Witness for C9: with now = 0, a session 25 hours stale (90000 s) is
swept, one 23 hours stale (82800 s) is retained with its data intact. -/
theorem spec_C9_witness :
    lookupS (cleanup_expired_sessions
        [("old", ⟨"a", -90000, -90000, none, [⟨"system", get_kids_system_prompt⟩]⟩),
         ("new", ⟨"b", -82800, -82800, none, [⟨"system", get_kids_system_prompt⟩]⟩)]
        0).1 "old" = none ∧
    lookupS (cleanup_expired_sessions
        [("old", ⟨"a", -90000, -90000, none, [⟨"system", get_kids_system_prompt⟩]⟩),
         ("new", ⟨"b", -82800, -82800, none, [⟨"system", get_kids_system_prompt⟩]⟩)]
        0).1 "new"
      = some ⟨"b", -82800, -82800, none, [⟨"system", get_kids_system_prompt⟩]⟩ := by
  have h := spec_C9_sweep_expired
    [("old", ⟨"a", -90000, -90000, none, [⟨"system", get_kids_system_prompt⟩]⟩),
     ("new", ⟨"b", -82800, -82800, none, [⟨"system", get_kids_system_prompt⟩]⟩)]
    0 (by decide)
  constructor
  · have h1 := h.1 "old" ⟨"a", -90000, -90000, none, [⟨"system", get_kids_system_prompt⟩]⟩ rfl
    rw [if_pos (by decide)] at h1
    exact h1
  · have h2 := h.1 "new" ⟨"b", -82800, -82800, none, [⟨"system", get_kids_system_prompt⟩]⟩
      (by rw [lookupS]; rw [if_neg (by decide)]; rfl)
    rw [if_neg (by decide)] at h2
    exact h2

/-- C10: in every reachable store state, a stored session's history starts
with the system message composed from its current additional prompt, and
across any further operation the entries after index 0 are only ever
extended, never modified or removed. -/
theorem spec_C10_history_head_invariant (s s' : Sessions)
    (hr : Reachable s) (hstep : Step s s') :
    (∀ (sid : String) (sd : SessionData), lookupS s sid = some sd →
        sd.messages.head? =
          some ⟨"system", build_system_message sd.additional_prompt⟩) ∧
    (∀ (sid : String) (sd sd' : SessionData),
        lookupS s sid = some sd → lookupS s' sid = some sd' →
        sd.messages.tail <+: sd'.messages.tail) := by
  have hwf := reachable_storeWF hr
  exact ⟨fun sid sd hl => sessionWF_of_lookup hwf hl,
    fun sid sd sd' h1 h2 => step_tail_prefix hwf hstep h1 h2⟩

/-- Witness for C10: the store reached by creating one session, stepped by
a validation touch. -/
theorem spec_C10_witness :
    ∃ sd : SessionData,
      lookupS (initiate_session [] "kid" "tok" 0).1 "tok" = some sd ∧
      sd.messages.head? =
        some ⟨"system", build_system_message sd.additional_prompt⟩ := by
  have hr : Reachable (initiate_session [] "kid" "tok" 0).1 :=
    Reachable.step Reachable.init (Step.initiate [] "kid" "tok" 0 rfl)
  have h := (spec_C10_history_head_invariant _ _ hr
    (Step.touch (initiate_session [] "kid" "tok" 0).1 "tok" 1)).1
  exact ⟨_, rfl, h "tok" _ rfl⟩

end KiddyChat

